import Mathlib

/-!
Verification of the scie-pants launcher core (src/main.rs, src/build_root.rs,
src/config.rs, src/pants_bootstrap.rs) against its natural-language
specification.

Shallow embedding conventions:
- `OsString` values are modelled as `String` (the UTF-8 decoding failures the
  Rust code can surface are outside the model, since Lean `String`s are
  already valid text).
- Environment-variable lookups (`env::var_os`) are passed in explicitly as
  `Option String` inputs.
- Filesystem probes (`Path::is_file`) are passed in as boolean-valued
  functions on paths.
- Fallible Rust functions returning `Result` become `Except LaunchError`.
-/

namespace SciePants

/-- Rust `Process` struct (main.rs lines 22-27): executable, argument vector,
environment overlay. -/
structure Process where
  exe : String
  args : List String
  env : List (String × String)
deriving Repr, DecidableEq

/-- Errors surfaced by the launcher core (the `anyhow` failure paths that the
embedded code can hit). -/
inductive LaunchError where
  | scieMissing
  | buildRootMissing
  | rootNotFound
  | versionFileReadError
  | bootstrapScriptFailure (code : Option Int) (output : String)
  | conflictingVersionSelectors
deriving Repr, DecidableEq

deriving instance DecidableEq for Except

/-- Rust `PathBuf::join` with a relative component (model). -/
def pathJoin (dir file : String) : String :=
  dir ++ "/" ++ file

/-- main.rs `env_version` (lines 78-88): reads a version env var; an unset
variable and a variable set to the empty string are both `None`, otherwise
`Some` of the value. (The non-UTF-8 failure branch cannot arise for `String`
inputs.) -/
def env_version (raw : Option String) : Option String :=
  let raw_version := raw.getD ""
  if raw_version = "" then none else some raw_version

/-- main.rs lines 174-179: the effective Pants version is the `PANTS_VERSION`
environment override when it is set non-empty, otherwise the configured
version. -/
def resolvePantsVersion (envPantsVersion configured : Option String) : Option String :=
  match env_version envPantsVersion with
  | some v => some v
  | none => configured

/-- Modelled from the spec: the two-override version resolver described in
spec section 4.4, including the "by source revision" override and the
`ConflictingVersionSelectors` failure. This code is absent from src/ (the
snapshot's main.rs handles only the "by version string" override
`PANTS_VERSION`), so it is reconstructed from the spec's words: if both
overrides are set non-empty, fail with `ConflictingVersionSelectors`; if the
version-string override is set it wins; else if the revision override is set
the effective version is none; otherwise the configured version is used; an
override set to the empty string is treated as absent. -/
def specResolveVersion (versionOverride revisionOverride configured : Option String) :
    Except LaunchError (Option String) :=
  match env_version versionOverride, env_version revisionOverride with
  | some _, some _ => .error .conflictingVersionSelectors
  | some v, none => .ok (some v)
  | none, some _ => .ok none
  | none, none => .ok configured

/-- main.rs `ScieBoot` enum (lines 98-103): the three boot modes. -/
inductive ScieBoot where
  | BootstrapTools
  | Pants
  | PantsDebug
deriving Repr, DecidableEq

/-- main.rs `ScieBoot::env_value` (lines 106-113). -/
def ScieBoot.env_value : ScieBoot → String
  | .BootstrapTools => "bootstrap-tools"
  | .Pants => "pants"
  | .PantsDebug => "pants-debug"

/-- Model of the external `shell_quote` crate's `bash::escape` (a dependency,
not repository code): ANSI-C style quoting that wraps the value in a
single-quoted `$\x27...\x27` region, backslash-escaping the quote and backslash
characters so the result is a single shell word. The claims verified below
depend only on the wrapped command-string structure, not on the details of
this escaping. -/
def bashQuote (s : String) : String :=
  "$\x27" ++ String.join (s.toList.map (fun c =>
    if c = '\\' then "\\\\"
    else if c = '\x27' then "\\\x27"
    else String.singleton c)) ++ "\x27"

/-- main.rs `ScieBoot::into_process` (lines 127-157): when a build root is
known, the boot mode is not `BootstrapTools`, and `<root>/.pants.bootstrap`
is a file, wrap the scie execution in a bash command that sources the
(shell-quoted) bootstrap script and then execs the (shell-quoted) scie;
otherwise execute the scie directly. `isFile` stands in for
`Path::is_file`. (The Rust `Result` only fails on non-UTF-8 quoting input,
which cannot arise for `String`s, so the model is total.) -/
def ScieBoot.into_process (self : ScieBoot) (scie : String) (build_root : Option String)
    (isFile : String → Bool) (env : List (String × String)) : Process :=
  match build_root.map (fun br => pathJoin br ".pants.bootstrap") with
  | some pants_bootstrap =>
    if self ≠ ScieBoot.BootstrapTools ∧ isFile pants_bootstrap then
      { exe := "/usr/bin/env"
        args := ["bash", "-c",
          "set -eou pipefail; source " ++ bashQuote pants_bootstrap ++
            "; exec " ++ bashQuote scie ++ " \"$0\" \"$@\""]
        env := env }
    else
      { exe := scie, args := [], env := env }
  | none => { exe := scie, args := [], env := env }

/-- All inputs that main.rs `get_pants_process` (lines 160-251) reads from
the environment, the filesystem and the parsed Pants config.
`buildRoot`/`configuredPantsVersion`/`debugpyVersion`/`delegateBootstrap` are
the four values destructured from `find_pants_installation()` (lines
162-172; all `none`/`false` when no installation is found); the `env*`
fields are the raw `env::var_os` lookups; `salt` is the value produced by
`Uuid::new_v4().simple().to_string()`; `sciePantsVersion` is the
`CARGO_PKG_VERSION` compile-time constant; `isFile` stands in for
`Path::is_file`. -/
structure PantsProcessInputs where
  buildRoot : Option String
  configuredPantsVersion : Option String
  debugpyVersion : Option String
  delegateBootstrap : Bool
  envPantsVersion : Option String
  envScie : Option String
  envPantsDebug : Option String
  envPantsBootstrapTools : Option String
  envPantsBinName : Option String
  envScieArgv0 : Option String
  salt : String
  sciePantsVersion : String
  isFile : String → Bool

/-- main.rs line 198: `PANTS_DEBUG` counts as on when set non-empty. -/
def pantsDebugFlag (i : PantsProcessInputs) : Bool :=
  match i.envPantsDebug with
  | some value => value != ""
  | none => false

/-- main.rs lines 199-203: `PANTS_BOOTSTRAP_TOOLS` present (even empty)
forces `BootstrapTools`; otherwise the debug flag selects `PantsDebug`, and
`Pants` is the default. -/
def scieBootMode (i : PantsProcessInputs) : ScieBoot :=
  match i.envPantsBootstrapTools with
  | some _ => ScieBoot.BootstrapTools
  | none => if pantsDebugFlag i then ScieBoot.PantsDebug else ScieBoot.Pants

/-- main.rs lines 205-207: the reported bin name prefers `PANTS_BIN_NAME`,
then `SCIE_ARGV0`, then the scie path itself. -/
def pantsBinName (i : PantsProcessInputs) (scie : String) : String :=
  (i.envPantsBinName.orElse (fun _ => i.envScieArgv0)).getD scie

/-- The ordered environment overlay built by main.rs lines 209-248: the four
fixed entries, then `PANTS_DEBUGPY_VERSION` if configured, then the
root-derived entries (`PANTS_BUILDROOT_OVERRIDE` always when a root exists,
`PANTS_TOML` only when the config declares no version — see the code comment
at lines 226-229), then the resolved version (preceded in delegate mode by
`_PANTS_VERSION_OVERRIDE`) or else the random prompt salt. -/
def pantsEnvOverlay (i : PantsProcessInputs) (scie : String) : List (String × String) :=
  [("SCIE_BOOT", (scieBootMode i).env_value),
   ("PANTS_BIN_NAME", pantsBinName i scie),
   ("PANTS_DEBUG", if pantsDebugFlag i then "1" else ""),
   ("SCIE_PANTS_VERSION", i.sciePantsVersion)]
  ++ (match i.debugpyVersion with
      | some debugpy_version => [("PANTS_DEBUGPY_VERSION", debugpy_version)]
      | none => [])
  ++ (match i.buildRoot with
      | some build_root =>
        ("PANTS_BUILDROOT_OVERRIDE", build_root) ::
          (if i.configuredPantsVersion = none then
            [("PANTS_TOML", pathJoin build_root "pants.toml")]
          else [])
      | none => [])
  ++ (match resolvePantsVersion i.envPantsVersion i.configuredPantsVersion with
      | some version =>
        (if i.delegateBootstrap then [("_PANTS_VERSION_OVERRIDE", version)] else []) ++
          [("PANTS_VERSION", version)]
      | none => [("PANTS_VERSION_PROMPT_SALT", i.salt)])

/-- main.rs `get_pants_process` (lines 160-251), as a pure function of its
environment/config inputs: version resolution (lines 174-179), the
delegate-bootstrap short-circuit (181-190, where `expect` on a missing
build root becomes `buildRootMissing`), the required `SCIE` location
(195-196), and otherwise the boot mode, overlay and shell wrapping via
`ScieBoot::into_process`. -/
def get_pants_process (i : PantsProcessInputs) : Except LaunchError Process :=
  if i.delegateBootstrap ∧
      resolvePantsVersion i.envPantsVersion i.configuredPantsVersion = none then
    match i.buildRoot with
    | none => .error .buildRootMissing
    | some build_root =>
      .ok { exe := pathJoin build_root "pants", args := [], env := [] }
  else
    match i.envScie with
    | none => .error .scieMissing
    | some scie =>
      .ok ((scieBootMode i).into_process scie i.buildRoot i.isFile (pantsEnvOverlay i scie))

/-- Is the character one of the whitespace characters Rust `str::trim`
strips in practice for a VERSION file (space, tab, newline, carriage
return)? -/
def isTrimWhitespace (c : Char) : Bool :=
  c = ' ' || c = '\t' || c = '\n' || c = '\x0d'

/-- Model of Rust `str::trim` (main.rs line 275): drop leading and trailing
whitespace characters. -/
def strTrim (s : String) : String :=
  ⟨((s.toList.dropWhile isTrimWhitespace).reverse.dropWhile isTrimWhitespace).reverse⟩

/-- Inputs read by main.rs `get_pants_from_sources_process` (lines 253-286):
the `PANTS_SOURCE`/alias-derived repo location, the contents of the
checkout's `src/python/pants/VERSION` file (`none` models the read failing),
the two pantsd env-var lookups, the result of `BuildRoot::find(None)`
(`none` models `RootNotFound`), and the `CARGO_PKG_VERSION` constant. -/
structure SourcesProcessInputs where
  pantsRepoLocation : String
  versionFileContents : Option String
  envEnablePantsd : Option String
  envPantsPantsd : Option String
  foundBuildRoot : Option String
  sciePantsVersion : String

/-- main.rs `get_pants_from_sources_process` (lines 253-286): executes the
checkout's own `pants` runner with `--no-verify-config`, with an overlay
carrying the trimmed VERSION file contents, the pantsd flag (from
`ENABLE_PANTSD` then `PANTS_PANTSD`, defaulting to "false"), the caller's
build root, `no_proxy`, and the launcher's own version. -/
def get_pants_from_sources_process (i : SourcesProcessInputs) : Except LaunchError Process :=
  let exe := pathJoin i.pantsRepoLocation "pants"
  let args := ["--no-verify-config"]
  match i.versionFileContents with
  | none => .error .versionFileReadError
  | some version =>
    let enable_pantsd := (i.envEnablePantsd.orElse (fun _ => i.envPantsPantsd)).getD "false"
    match i.foundBuildRoot with
    | none => .error .rootNotFound
    | some build_root =>
      .ok { exe := exe, args := args
            env := [("PANTS_VERSION", strTrim version),
                    ("PANTS_PANTSD", enable_pantsd),
                    ("PANTS_BUILDROOT_OVERRIDE", build_root),
                    ("no_proxy", "*"),
                    ("SCIE_PANTS_VERSION", i.sciePantsVersion)] }

/-!
Build root discovery (build_root.rs). Directories are modelled as lists of
path components in reverse order (head = deepest component), so the
filesystem root is `[]` and "move to the parent" is `List.tail`; `parent()`
of the filesystem root returns `None` in Rust, which is the `RootNotFound`
failure. A filesystem is a pure predicate telling whether a named file
exists in a given directory, matching `cwd.join(name).is_file()`.
-/

/-- The fixed, ordered marker file list of build_root.rs line 23. -/
def markerFileNames : List String := ["pants.toml", "BUILDROOT", "BUILD_ROOT"]

/-- The inner `for` loop of `BuildRoot::find` (build_root.rs lines 23-27):
does any marker file exist in this directory? -/
def hasMarkerFile (isFileIn : List String → String → Bool) (dir : List String) : Bool :=
  markerFileNames.any (fun marker_file_name => isFileIn dir marker_file_name)

/-- build_root.rs `BuildRoot::find` (lines 14-35): walk up from the start
directory; the first directory containing a marker file is the build root;
reaching the filesystem root without a match is the `RootNotFound` failure
(`parent()` returning `None`). A pure function: deterministic, no side
effects. -/
def BuildRoot.find (isFileIn : List String → String → Bool) :
    List String → Except LaunchError (List String)
  | [] =>
    if hasMarkerFile isFileIn [] then .ok [] else .error .rootNotFound
  | d :: parent =>
    if hasMarkerFile isFileIn (d :: parent) then .ok (d :: parent)
    else BuildRoot.find isFileIn parent

/-!
Bootstrap environment diff (pants_bootstrap.rs). The subprocess interaction
is modelled by its observable pieces: the exit status, the captured
redirected output of the sourced script, and the two `set` dumps split into
lines (stderr = the "before" dump, stdout = the "after" dump).
-/

/-- Split a character list at the first `=`, returning the characters
before it and after it, or `none` when no `=` occurs. -/
def splitFirstEq : List Char → Option (List Char × List Char)
  | [] => none
  | c :: rest =>
    if c = '=' then some ([], rest)
    else match splitFirstEq rest with
      | some (key, value) => some (c :: key, value)
      | none => none

/-- Rust `line.splitn(2, '=')` followed by the two-element match
(pants_bootstrap.rs lines 81 and 100): a line parses as an env entry exactly
when it contains at least one `=`; the key is everything before the first
`=` and the value everything after it (later `=` characters belong to the
value). -/
def parseEnvLine (line : String) : Option (String × String) :=
  match splitFirstEq line.toList with
  | some (key, value) => some (⟨key⟩, ⟨value⟩)
  | none => none

/-- pants_bootstrap.rs line 102: variable names elided from the diff because
sourcing even an empty file sets them. -/
def noiseVarNames : List String := ["BASH_ARGC", "PIPESTATUS", "_"]

/-- The `original` HashMap built from the "before" dump (pants_bootstrap.rs
lines 79-90): unparsable lines are skipped (with a diagnostic) and, as with
`HashMap::insert`, a later entry for the same key overwrites an earlier
one. -/
def buildOriginal (beforeLines : List String) : List (String × String) :=
  beforeLines.filterMap parseEnvLine

/-- `HashMap::get` on the model of `original`: the last inserted value for
the key, if any. -/
def hashGet (entries : List (String × String)) (key : String) : Option String :=
  entries.foldl (fun acc kv => if kv.1 = key then some kv.2 else acc) none

/-- One iteration of the "after" dump loop (pants_bootstrap.rs lines
99-120), reduced to the entry it contributes: `none` for an unparsable line
(skipped with a diagnostic), a noise variable, or a variable whose value
equals its "before" value; otherwise the `(key, value)` pair pushed onto the
diff. -/
def diffEntry (original : List (String × String)) (line : String) : Option (String × String) :=
  match parseEnvLine line with
  | some (key, value) =>
    if key ∈ noiseVarNames then none
    else if hashGet original key = some value then none
    else some (key, value)
  | none => none

/-- The `env` accumulation loop of pants_bootstrap.rs lines 98-120 as a left
fold over the "after" dump lines. -/
def computeEnvDiff (beforeLines afterLines : List String) : List (String × String) :=
  afterLines.foldl
    (fun env line =>
      match diffEntry (buildOriginal beforeLines) line with
      | some entry => env ++ [entry]
      | none => env)
    []

/-- pants_bootstrap.rs `PantsBootstrap::load` (lines 21-122) over the
observable outcome of the bash subprocess: `none` when no
`.pants.bootstrap` file exists (not an error); the `BootstrapScriptFailure`
bail (lines 60-76, carrying the subprocess exit code and the captured
redirected script output) when the subprocess exits unsuccessfully;
otherwise the computed environment diff. (Spawn failures and non-UTF-8
dumps are I/O conditions outside the model.) -/
def PantsBootstrap.load (bootstrapIsFile : Bool) (statusSuccess : Bool)
    (statusCode : Option Int) (capturedOutput : String)
    (beforeLines afterLines : List String) :
    Except LaunchError (Option (List (String × String))) :=
  if !bootstrapIsFile then .ok none
  else if !statusSuccess then
    .error (.bootstrapScriptFailure statusCode capturedOutput)
  else .ok (some (computeEnvDiff beforeLines afterLines))

/-!
Config parsing (config.rs). The TOML document is modelled as a tree of
values, and the serde `Deserialize` derivations for `Global`, `Setup` and
`Config` (config.rs lines 12-51) are written out as explicit parsers: a
struct field without `#[serde(default)]` is required (its absence is a
deserialization error), a field with it falls back to `Default`, and an
`Option` field is `None` when absent.
-/

/-- A TOML value, restricted to the shapes the `Config` schema can
consume. -/
inductive Toml where
  | str (s : String)
  | boolean (b : Bool)
  | table (entries : List (String × Toml))

/-- Parse errors from deserializing `Config` (the `ConfigParseError`
taxonomy: a missing required field or a value of the wrong type). -/
inductive ConfigError where
  | missingField (name : String)
  | typeMismatch (name : String)
deriving Repr, DecidableEq

/-- Key lookup in a TOML table's entry list (TOML forbids duplicate keys, so
first match suffices). -/
def tomlLookup (entries : List (String × Toml)) (key : String) : Option Toml :=
  match entries.find? (fun entry => entry.1 = key) with
  | some entry => some entry.2
  | none => none

/-- config.rs `Global` (lines 12-15): `pants_version` is a required
`String`. -/
structure Global where
  pants_version : String
deriving Repr, DecidableEq

/-- config.rs `Setup` (lines 17-20): `cache` is `Option<PathBuf>`, absent
means `None`. -/
structure Setup where
  cache : Option String
deriving Repr, DecidableEq

/-- config.rs `Config` (lines 45-51): the `GLOBAL` table is required; the
`setup` table carries `#[serde(default)]` and so defaults when absent. -/
structure Config where
  global : Global
  setup : Setup
deriving Repr, DecidableEq

/-- serde deserialization of `Global` (config.rs lines 12-15): the
`pants_version` field is required and must be a string. -/
def parseGlobal : Toml → Except ConfigError Global
  | .table entries =>
    match tomlLookup entries "pants_version" with
    | some (.str v) => .ok { pants_version := v }
    | some _ => .error (.typeMismatch "pants_version")
    | none => .error (.missingField "pants_version")
  | _ => .error (.typeMismatch "GLOBAL")

/-- serde deserialization of `Setup` (config.rs lines 17-20): the `cache`
field is optional. -/
def parseSetup : Toml → Except ConfigError Setup
  | .table entries =>
    match tomlLookup entries "cache" with
    | some (.str v) => .ok { cache := some v }
    | some _ => .error (.typeMismatch "cache")
    | none => .ok { cache := none }
  | _ => .error (.typeMismatch "setup")

/-- serde deserialization of `Config` from the top-level table (config.rs
lines 45-51, as driven by `toml::from_slice` in `PantsConfig::parse` line
78): the `GLOBAL` section is required (renamed from `global`), and a missing
`setup` section falls back to `Setup::default()`, i.e. `cache = none`.
Unknown top-level keys are ignored, as serde does by default. -/
def parseConfig (entries : List (String × Toml)) : Except ConfigError Config :=
  match tomlLookup entries "GLOBAL" with
  | none => .error (.missingField "GLOBAL")
  | some globalValue =>
    match parseGlobal globalValue with
    | .error e => .error e
    | .ok global =>
      match tomlLookup entries "setup" with
      | none => .ok { global := global, setup := { cache := none } }
      | some setupValue =>
        match parseSetup setupValue with
        | .error e => .error e
        | .ok setup => .ok { global := global, setup := setup }

/-!
Claim theorems.
-/

/-- Claim C1: for every invocation of version resolution, a `PANTS_VERSION`
environment override set to a non-empty value wins over the configured
version; an unset override resolves to the configured version (which may be
absent); an override present but empty behaves identically to an absent
override. -/
theorem c1_version_override_precedence (configured : Option String) :
    (∀ v : String, v ≠ "" → resolvePantsVersion (some v) configured = some v) ∧
    resolvePantsVersion none configured = configured ∧
    resolvePantsVersion (some "") configured = resolvePantsVersion none configured := by
  refine ⟨fun v hv => ?_, ?_, ?_⟩ <;>
    simp [resolvePantsVersion, env_version, *]

/-- Concrete instance of C1: config version "1.2.3" resolves as-is with no
override, an override "2.0.0" wins, and an empty override acts as unset. -/
theorem c1_version_override_precedence_witness :
    resolvePantsVersion (some "2.0.0") (some "1.2.3") = some "2.0.0" ∧
    resolvePantsVersion none (some "1.2.3") = some "1.2.3" ∧
    resolvePantsVersion (some "") (some "1.2.3") = resolvePantsVersion none (some "1.2.3") := by
  have h := c1_version_override_precedence (some "1.2.3")
  exact ⟨h.1 "2.0.0" (by decide), h.2.1, h.2.2⟩

/-- Claim C2: whenever both the "by version string" and the "by source
revision" override variables are simultaneously set non-empty, resolution
fails with `ConflictingVersionSelectors` (resolver modelled from the spec;
this logic is absent from the src/ snapshot). -/
theorem c2_conflicting_version_selectors (versionOverride revisionOverride : String)
    (configured : Option String) (hv : versionOverride ≠ "") (hr : revisionOverride ≠ "") :
    specResolveVersion (some versionOverride) (some revisionOverride) configured =
      .error .conflictingVersionSelectors := by
  simp [specResolveVersion, env_version, hv, hr]

/-- Concrete instance of C2: a version override "2.0.0" together with a
revision override "deadbeef" fails with `ConflictingVersionSelectors`. -/
theorem c2_conflicting_version_selectors_witness :
    specResolveVersion (some "2.0.0") (some "deadbeef") (some "1.2.3") =
      .error .conflictingVersionSelectors :=
  c2_conflicting_version_selectors "2.0.0" "deadbeef" (some "1.2.3")
    (by decide) (by decide)

/-- Claim C7: root location checks the fixed ordered marker set
(`pants.toml`, `BUILDROOT`, `BUILD_ROOT`) at the current directory; if any
is a file that directory is returned, otherwise the search moves to the
parent and repeats, and reaching the filesystem root without a match fails
with `RootNotFound`. The search is a pure function of the filesystem state,
hence deterministic and side-effect free. -/
theorem c7_build_root_search (isFileIn : List String → String → Bool) (dir : List String) :
    (hasMarkerFile isFileIn dir =
      (isFileIn dir "pants.toml" || isFileIn dir "BUILDROOT" || isFileIn dir "BUILD_ROOT")) ∧
    (hasMarkerFile isFileIn dir = true → BuildRoot.find isFileIn dir = .ok dir) ∧
    (hasMarkerFile isFileIn dir = false → dir = [] →
      BuildRoot.find isFileIn dir = .error .rootNotFound) ∧
    (hasMarkerFile isFileIn dir = false → ∀ d parent, dir = d :: parent →
      BuildRoot.find isFileIn dir = BuildRoot.find isFileIn parent) := by
  refine ⟨?_, ?_, ?_, ?_⟩
  · simp [hasMarkerFile, markerFileNames, Bool.or_assoc]
  · intro h
    cases dir with
    | nil => simp [BuildRoot.find, h]
    | cons d parent => simp [BuildRoot.find, h]
  · intro h hdir
    subst hdir
    simp [BuildRoot.find, h]
  · intro h d parent hdir
    subst hdir
    simp [BuildRoot.find, h]

/-- A two-level concrete filesystem for the C7 witness: the only file is
`pants.toml` inside the directory `/proj` (paths are reverse component
lists). -/
def markerDemoFs : List String → String → Bool :=
  fun dir name => dir == ["proj"] && name == "pants.toml"

/-- Concrete instance of C7: the search started in `/proj/sub` steps to its
parent, succeeds at `/proj` where `pants.toml` exists, and started at the
filesystem root with no marker anywhere it fails with `RootNotFound`. -/
theorem c7_build_root_search_witness :
    BuildRoot.find markerDemoFs ["sub", "proj"] = BuildRoot.find markerDemoFs ["proj"] ∧
    BuildRoot.find markerDemoFs ["proj"] = .ok ["proj"] ∧
    BuildRoot.find markerDemoFs [] = .error .rootNotFound := by
  refine ⟨?_, ?_, ?_⟩
  · exact (c7_build_root_search markerDemoFs ["sub", "proj"]).2.2.2 (by decide)
      "sub" ["proj"] rfl
  · exact (c7_build_root_search markerDemoFs ["proj"]).2.1 (by decide)
  · exact (c7_build_root_search markerDemoFs []).2.2.1 (by decide) rfl

/-- Counterexample to claim C6 as stated: a config file whose `GLOBAL`
section lacks the `pants_version` entry does not parse successfully into a
`Config` with an absent version — `pants_version` is a required `String`
field in config.rs, so deserialization fails with a missing-field error. -/
theorem c6_counterexample :
    parseConfig [("GLOBAL", Toml.table [])] = .error (.missingField "pants_version") := rfl

/-- Claim C6 as amended: a missing `setup` section defaults (to
`cache = none`) rather than erroring, but the `GLOBAL` section and its
`pants_version` entry are required — a config lacking either fails to parse
with a missing-field error, since `pants_version` is `String`, not
`Option<String>`. -/
theorem c6_config_section_defaults (entries gEntries : List (String × Toml)) (v : String) :
    (tomlLookup entries "GLOBAL" = none →
      parseConfig entries = .error (.missingField "GLOBAL")) ∧
    (tomlLookup entries "GLOBAL" = some (Toml.table gEntries) →
      tomlLookup gEntries "pants_version" = none →
      parseConfig entries = .error (.missingField "pants_version")) ∧
    (tomlLookup entries "GLOBAL" = some (Toml.table gEntries) →
      tomlLookup gEntries "pants_version" = some (Toml.str v) →
      tomlLookup entries "setup" = none →
      parseConfig entries =
        .ok { global := { pants_version := v }, setup := { cache := none } }) := by
  refine ⟨?_, ?_, ?_⟩
  · intro h
    simp [parseConfig, h]
  · intro hg hp
    simp [parseConfig, parseGlobal, hg, hp]
  · intro hg hp hs
    simp [parseConfig, parseGlobal, hg, hp, hs]

/-- Concrete instance of C6 (amended): an empty config misses `GLOBAL`, a
config with an empty `GLOBAL` table misses `pants_version`, and a config
declaring only `GLOBAL.pants_version = "2.18.0"` parses with the defaulted
`setup` section. -/
theorem c6_config_section_defaults_witness :
    parseConfig [] = .error (.missingField "GLOBAL") ∧
    parseConfig [("GLOBAL", Toml.table [("pants_version", Toml.str "2.18.0")])] =
      .ok { global := { pants_version := "2.18.0" }, setup := { cache := none } } := by
  constructor
  · exact (c6_config_section_defaults [] [] "x").1 rfl
  · exact (c6_config_section_defaults
      [("GLOBAL", Toml.table [("pants_version", Toml.str "2.18.0")])]
      [("pants_version", Toml.str "2.18.0")] "2.18.0").2.2 rfl rfl rfl

/-- Claim C4: with a build root whose `.pants.bootstrap` is a file and a
boot mode other than `BootstrapTools`, the produced executable is a shell
invocation whose command string sources the shell-quoted bootstrap path and
then execs the shell-quoted runtime path; in `BootstrapTools` mode no
wrapping occurs even with the script present, and the executable is the
runtime path directly. -/
theorem c4_shell_wrapping (mode : ScieBoot) (scie build_root : String)
    (isFile : String → Bool) (env : List (String × String)) :
    (mode ≠ ScieBoot.BootstrapTools →
      isFile (pathJoin build_root ".pants.bootstrap") = true →
      mode.into_process scie (some build_root) isFile env =
        { exe := "/usr/bin/env"
          args := ["bash", "-c",
            "set -eou pipefail; source " ++ bashQuote (pathJoin build_root ".pants.bootstrap") ++
              "; exec " ++ bashQuote scie ++ " \"$0\" \"$@\""]
          env := env }) ∧
    (ScieBoot.BootstrapTools.into_process scie (some build_root) isFile env =
      { exe := scie, args := [], env := env }) := by
  constructor
  · intro hmode hfile
    simp [ScieBoot.into_process, hmode, hfile]
  · simp [ScieBoot.into_process]

/-- Concrete instance of C4: in `Pants` mode with `/repo/.pants.bootstrap`
present the descriptor is the bash wrapper over the quoted paths; in
`BootstrapTools` mode it is the runtime itself with no arguments. -/
theorem c4_shell_wrapping_witness :
    ScieBoot.Pants.into_process "/scie" (some "/repo") (fun _ => true) [] =
      { exe := "/usr/bin/env"
        args := ["bash", "-c",
          "set -eou pipefail; source " ++ bashQuote (pathJoin "/repo" ".pants.bootstrap") ++
            "; exec " ++ bashQuote "/scie" ++ " \"$0\" \"$@\""]
        env := [] } ∧
    ScieBoot.BootstrapTools.into_process "/scie" (some "/repo") (fun _ => true) [] =
      { exe := "/scie", args := [], env := [] } := by
  constructor
  · exact (c4_shell_wrapping ScieBoot.Pants "/scie" "/repo" (fun _ => true) []).1
      (by decide) rfl
  · exact (c4_shell_wrapping ScieBoot.Pants "/scie" "/repo" (fun _ => true) []).2

/-- The accumulation loop of `computeEnvDiff` is the order-preserving
`filterMap` of its per-line entry function over the "after" dump lines. -/
theorem foldl_push_eq_filterMap (f : String → Option (String × String))
    (lines : List String) (acc : List (String × String)) :
    lines.foldl
      (fun env line =>
        match f line with
        | some entry => env ++ [entry]
        | none => env)
      acc = acc ++ lines.filterMap f := by
  induction lines generalizing acc with
  | nil => simp
  | cons line rest ih =>
    cases h : f line <;> simp [List.filterMap_cons, h, ih]

/-- `computeEnvDiff` in closed form. -/
theorem computeEnvDiff_eq_filterMap (beforeLines afterLines : List String) :
    computeEnvDiff beforeLines afterLines =
      afterLines.filterMap (diffEntry (buildOriginal beforeLines)) := by
  simpa using
    foldl_push_eq_filterMap (diffEntry (buildOriginal beforeLines)) afterLines []

/-- Characterization of the entry a single "after"-dump line contributes. -/
theorem diffEntry_eq_some (original : List (String × String)) (line : String)
    (key value : String) :
    diffEntry original line = some (key, value) ↔
      parseEnvLine line = some (key, value) ∧ key ∉ noiseVarNames ∧
        hashGet original key ≠ some value := by
  unfold diffEntry
  cases h : parseEnvLine line with
  | none => simp
  | some kv =>
    obtain ⟨k, v⟩ := kv
    dsimp only
    constructor
    · intro heq
      split_ifs at heq with hn hv
      obtain ⟨rfl, rfl⟩ := heq
      exact ⟨rfl, hn, hv⟩
    · rintro ⟨hkv, hnoise, hval⟩
      injection hkv with h2
      rw [Prod.mk.injEq] at h2
      obtain ⟨rfl, rfl⟩ := h2
      rw [if_neg hnoise, if_neg hval]

/-- Claim C5: a variable appears in the computed bootstrap diff iff some
"after"-dump line assigns it that value, its name is not one of the noise
variables (`BASH_ARGC`, `PIPESTATUS`, `_`), and the "before" map does not
already bind it to the same value (absent, or present with a different
value); and the diff is the order-preserving `filterMap` of the "after"
dump, so entries follow the order variables appeared there. -/
theorem c5_bootstrap_diff (beforeLines afterLines : List String) :
    (computeEnvDiff beforeLines afterLines =
      afterLines.filterMap (diffEntry (buildOriginal beforeLines))) ∧
    (∀ key value : String,
      (key, value) ∈ computeEnvDiff beforeLines afterLines ↔
        key ∉ noiseVarNames ∧
        hashGet (buildOriginal beforeLines) key ≠ some value ∧
        ∃ line ∈ afterLines, parseEnvLine line = some (key, value)) := by
  refine ⟨computeEnvDiff_eq_filterMap beforeLines afterLines, fun key value => ?_⟩
  rw [computeEnvDiff_eq_filterMap, List.mem_filterMap]
  constructor
  · rintro ⟨line, hline, hentry⟩
    obtain ⟨hparse, hnoise, hval⟩ := (diffEntry_eq_some _ _ _ _).mp hentry
    exact ⟨hnoise, hval, line, hline, hparse⟩
  · rintro ⟨hnoise, hval, line, hline, hparse⟩
    exact ⟨line, hline, (diffEntry_eq_some _ _ _ _).mpr ⟨hparse, hnoise, hval⟩⟩

/-- Concrete instance of C5: with a "before" dump binding `HOME=/home/u`,
an "after" dump that re-binds `HOME=/home/u`, newly binds `FOO=bar`, and
sets the noise variable `_=x` yields a diff of exactly `[(FOO, bar)]`. -/
theorem c5_bootstrap_diff_witness :
    ("FOO", "bar") ∈ computeEnvDiff ["HOME=/home/u"] ["HOME=/home/u", "FOO=bar", "_=x"] ∧
    computeEnvDiff ["HOME=/home/u"] ["HOME=/home/u", "FOO=bar", "_=x"] = [("FOO", "bar")] := by
  constructor
  · exact ((c5_bootstrap_diff ["HOME=/home/u"] ["HOME=/home/u", "FOO=bar", "_=x"]).2
      "FOO" "bar").mpr (by decide)
  · decide

/-- Claim C8: a bootstrap-sourcing subprocess that exits unsuccessfully
makes loading fail with `BootstrapScriptFailure` carrying the captured
redirected script output, while a dump line that does not parse as
`key=value` is never fatal: it is skipped and the diff of the remaining
lines is computed as if it were not there. -/
theorem c8_bootstrap_failure_and_skip (statusCode : Option Int) (capturedOutput : String)
    (beforeLines afterLines preLines postLines : List String) (badLine : String) :
    (PantsBootstrap.load true false statusCode capturedOutput beforeLines afterLines =
      .error (.bootstrapScriptFailure statusCode capturedOutput)) ∧
    (parseEnvLine badLine = none →
      computeEnvDiff beforeLines (preLines ++ badLine :: postLines) =
        computeEnvDiff beforeLines (preLines ++ postLines)) := by
  constructor
  · simp [PantsBootstrap.load]
  · intro hbad
    rw [computeEnvDiff_eq_filterMap, computeEnvDiff_eq_filterMap]
    simp [List.filterMap_append, List.filterMap_cons, diffEntry, hbad]

/-- Concrete instance of C8: an exit-code-1 subprocess fails with
`BootstrapScriptFailure` carrying the captured output "boom", and the
`=`-free dump line "gibberish" is skipped without aborting the diff. -/
theorem c8_bootstrap_failure_and_skip_witness :
    (PantsBootstrap.load true false (some 1) "boom" [] ["FOO=bar"] =
      .error (.bootstrapScriptFailure (some 1) "boom")) ∧
    computeEnvDiff [] (["FOO=bar"] ++ "gibberish" :: ["BAZ=qux"]) =
      computeEnvDiff [] (["FOO=bar"] ++ ["BAZ=qux"]) := by
  constructor
  · exact (c8_bootstrap_failure_and_skip (some 1) "boom" [] ["FOO=bar"] [] [] "x").1
  · exact (c8_bootstrap_failure_and_skip (some 1) "boom" [] [] ["FOO=bar"] ["BAZ=qux"]
      "gibberish").2 (by decide)

/-- Shell wrapping never alters the environment overlay handed to
`into_process`. -/
theorem into_process_env_preserved (mode : ScieBoot) (scie : String)
    (build_root : Option String) (isFile : String → Bool)
    (env : List (String × String)) :
    (mode.into_process scie build_root isFile env).env = env := by
  unfold ScieBoot.into_process
  cases build_root with
  | none => rfl
  | some br =>
    by_cases h : mode ≠ ScieBoot.BootstrapTools ∧ isFile (pathJoin br ".pants.bootstrap")
    · simp [h]
    · simp [h]

/-- On the non-delegate path with `SCIE` set, `get_pants_process` produces
the boot-mode descriptor over the assembled overlay. -/
theorem get_pants_process_nondelegate (i : PantsProcessInputs) (scie : String)
    (hcond : ¬(i.delegateBootstrap = true ∧
      resolvePantsVersion i.envPantsVersion i.configuredPantsVersion = none))
    (hscie : i.envScie = some scie) :
    get_pants_process i =
      .ok ((scieBootMode i).into_process scie i.buildRoot i.isFile (pantsEnvOverlay i scie)) := by
  unfold get_pants_process
  rw [if_neg hcond, hscie]

/-- Claim C3: with `delegate_bootstrap` configured and no resolved version,
the builder short-circuits to a descriptor executing `<root>/pants` with
empty arguments and an empty environment overlay; with a resolved version
the normal descriptor is produced and its overlay carries
`_PANTS_VERSION_OVERRIDE` alongside `PANTS_VERSION`. -/
theorem c3_delegate_bootstrap (i : PantsProcessInputs) (build_root scie version : String) :
    (i.delegateBootstrap = true →
      resolvePantsVersion i.envPantsVersion i.configuredPantsVersion = none →
      i.buildRoot = some build_root →
      get_pants_process i =
        .ok { exe := pathJoin build_root "pants", args := [], env := [] }) ∧
    (i.delegateBootstrap = true →
      resolvePantsVersion i.envPantsVersion i.configuredPantsVersion = some version →
      i.envScie = some scie →
      ∃ p, get_pants_process i = .ok p ∧
        ("_PANTS_VERSION_OVERRIDE", version) ∈ p.env ∧
        ("PANTS_VERSION", version) ∈ p.env) := by
  constructor
  · intro hd hres hbr
    simp [get_pants_process, hd, hres, hbr]
  · intro hd hres hscie
    have hcond : ¬(i.delegateBootstrap = true ∧
        resolvePantsVersion i.envPantsVersion i.configuredPantsVersion = none) := by
      rintro ⟨-, hnone⟩
      rw [hres] at hnone
      exact Option.noConfusion hnone
    refine ⟨_, get_pants_process_nondelegate i scie hcond hscie, ?_, ?_⟩ <;>
      · rw [into_process_env_preserved]
        simp [pantsEnvOverlay, hres, hd]

/-- A delegate-bootstrap invocation with no resolvable version: root found
at `/repo`, config with no version, no overrides. -/
def delegateInput : PantsProcessInputs :=
  { buildRoot := some "/repo"
    configuredPantsVersion := none
    debugpyVersion := none
    delegateBootstrap := true
    envPantsVersion := none
    envScie := some "/scie"
    envPantsDebug := none
    envPantsBootstrapTools := none
    envPantsBinName := none
    envScieArgv0 := none
    salt := "cafebabe"
    sciePantsVersion := "0.0.0"
    isFile := fun _ => false }

/-- The same invocation with the config pinning version 2.18.0. -/
def delegateVersionInput : PantsProcessInputs :=
  { delegateInput with configuredPantsVersion := some "2.18.0" }

/-- Concrete instance of C3: with no version the delegate invocation yields
`/repo/pants` with empty arguments and overlay; with version 2.18.0 it
yields a descriptor whose overlay carries the override-priority signal
alongside the version. -/
theorem c3_delegate_bootstrap_witness :
    get_pants_process delegateInput =
      .ok { exe := pathJoin "/repo" "pants", args := [], env := [] } ∧
    ∃ p, get_pants_process delegateVersionInput = .ok p ∧
      ("_PANTS_VERSION_OVERRIDE", "2.18.0") ∈ p.env ∧
      ("PANTS_VERSION", "2.18.0") ∈ p.env := by
  constructor
  · exact (c3_delegate_bootstrap delegateInput "/repo" "x" "y").1 rfl (by decide) rfl
  · exact (c3_delegate_bootstrap delegateVersionInput "r" "/scie" "2.18.0").2 rfl
      (by decide) rfl

/-- A normal (non-delegate) invocation: root at `/repo`, config version
2.18.0, no overrides, no bootstrap script. -/
def configuredRootInput : PantsProcessInputs :=
  { delegateInput with delegateBootstrap := false, configuredPantsVersion := some "2.18.0" }

/-- The descriptor `configuredRootInput` produces. -/
def configuredRootProcess : Process :=
  { exe := "/scie", args := []
    env := [("SCIE_BOOT", "pants"), ("PANTS_BIN_NAME", "/scie"), ("PANTS_DEBUG", ""),
            ("SCIE_PANTS_VERSION", "0.0.0"), ("PANTS_BUILDROOT_OVERRIDE", "/repo"),
            ("PANTS_VERSION", "2.18.0")] }

/-- Counterexample to claim C9 as stated: with a project root at `/repo`
and a configured version, the overlay carries `PANTS_BUILDROOT_OVERRIDE`
but no `PANTS_TOML` entry at all — main.rs lines 229-234 push `PANTS_TOML`
only when the config declares no version (the code comment there says this
conditionality is a deliberate workaround). -/
theorem c9_counterexample :
    get_pants_process configuredRootInput = .ok configuredRootProcess ∧
    "PANTS_BUILDROOT_OVERRIDE" ∈ configuredRootProcess.env.map Prod.fst ∧
    "PANTS_TOML" ∉ configuredRootProcess.env.map Prod.fst := by
  exact ⟨by decide, by decide, by decide⟩

/-- Claim C9 as amended: on the normal (non-delegate) path with a root, the
overlay always carries `PANTS_BUILDROOT_OVERRIDE`, carries `PANTS_TOML`
(the config-file path) exactly when the config declares no version — when a
version is configured, no `PANTS_TOML` entry of any value appears — and
carries the resolved `PANTS_VERSION` when one resolved or else the freshly
generated `PANTS_VERSION_PROMPT_SALT` token. -/
theorem c9_root_env_overlay (i : PantsProcessInputs) (build_root scie : String) :
    i.buildRoot = some build_root →
    i.envScie = some scie →
    ¬(i.delegateBootstrap = true ∧
      resolvePantsVersion i.envPantsVersion i.configuredPantsVersion = none) →
    ∃ p, get_pants_process i = .ok p ∧
      ("PANTS_BUILDROOT_OVERRIDE", build_root) ∈ p.env ∧
      (i.configuredPantsVersion = none →
        ("PANTS_TOML", pathJoin build_root "pants.toml") ∈ p.env) ∧
      (∀ configured_version, i.configuredPantsVersion = some configured_version →
        "PANTS_TOML" ∉ p.env.map Prod.fst) ∧
      (∀ version,
        resolvePantsVersion i.envPantsVersion i.configuredPantsVersion = some version →
        ("PANTS_VERSION", version) ∈ p.env) ∧
      (resolvePantsVersion i.envPantsVersion i.configuredPantsVersion = none →
        ("PANTS_VERSION_PROMPT_SALT", i.salt) ∈ p.env) := by
  intro hbr hscie hcond
  refine ⟨_, get_pants_process_nondelegate i scie hcond hscie, ?_, ?_, ?_, ?_, ?_⟩
  · rw [into_process_env_preserved]
    simp [pantsEnvOverlay, hbr]
  · intro hc
    rw [into_process_env_preserved]
    simp [pantsEnvOverlay, hbr, hc]
  · intro configured_version hc
    rw [into_process_env_preserved]
    unfold pantsEnvOverlay
    rw [hbr, hc]
    cases hdb : i.debugpyVersion <;>
      cases hres : resolvePantsVersion i.envPantsVersion (some configured_version) <;>
        cases hdel : i.delegateBootstrap <;>
          simp [hdb, hres, hdel]
  · intro version hres
    rw [into_process_env_preserved]
    simp [pantsEnvOverlay, hres]
  · intro hres
    rw [into_process_env_preserved]
    simp [pantsEnvOverlay, hres]

/-- A normal invocation with a root and no version anywhere (the
prompt-salt case). -/
def promptRootInput : PantsProcessInputs :=
  { delegateInput with delegateBootstrap := false }

/-- Concrete instance of C9 (amended): with a configured version the
overlay has the build-root override and the version but no `PANTS_TOML`
entry; with no version it has the config-file path and the salt. -/
theorem c9_root_env_overlay_witness :
    (∃ p, get_pants_process configuredRootInput = .ok p ∧
      ("PANTS_BUILDROOT_OVERRIDE", "/repo") ∈ p.env ∧
      "PANTS_TOML" ∉ p.env.map Prod.fst ∧
      ("PANTS_VERSION", "2.18.0") ∈ p.env) ∧
    (∃ p, get_pants_process promptRootInput = .ok p ∧
      ("PANTS_TOML", pathJoin "/repo" "pants.toml") ∈ p.env ∧
      ("PANTS_VERSION_PROMPT_SALT", "cafebabe") ∈ p.env) := by
  constructor
  · obtain ⟨p, hp, hbr, -, hnotoml, hver, -⟩ :=
      c9_root_env_overlay configuredRootInput "/repo" "/scie" rfl rfl (by decide)
    exact ⟨p, hp, hbr, hnotoml "2.18.0" rfl, hver "2.18.0" (by decide)⟩
  · obtain ⟨p, hp, -, htoml, -, -, hsalt⟩ :=
      c9_root_env_overlay promptRootInput "/repo" "/scie" rfl rfl (by decide)
    exact ⟨p, hp, htoml rfl, hsalt (by decide)⟩

/-- Counterexample to claim C10 as stated: the delegate short-circuit also
produces an environment overlay, and it is empty — it carries no
`SCIE_PANTS_VERSION` (or any other) variable. -/
theorem c10_counterexample :
    get_pants_process delegateInput =
      .ok { exe := pathJoin "/repo" "pants", args := [], env := [] } ∧
    "SCIE_PANTS_VERSION" ∉
      (Process.env { exe := pathJoin "/repo" "pants", args := [], env := [] }).map Prod.fst := by
  exact ⟨by decide, by decide⟩

/-- Claim C10 as amended: every overlay produced by the normal builder
other than by the delegate short-circuit (whose overlay is empty), and
every overlay produced by the sources-mode builder, carries the launcher's
own package version under `SCIE_PANTS_VERSION`. -/
theorem c10_scie_pants_version_overlay (i : PantsProcessInputs) (j : SourcesProcessInputs)
    (p q : Process) :
    (¬(i.delegateBootstrap = true ∧
        resolvePantsVersion i.envPantsVersion i.configuredPantsVersion = none) →
      get_pants_process i = .ok p →
      ("SCIE_PANTS_VERSION", i.sciePantsVersion) ∈ p.env) ∧
    (get_pants_from_sources_process j = .ok q →
      ("SCIE_PANTS_VERSION", j.sciePantsVersion) ∈ q.env) := by
  constructor
  · intro hcond hp
    cases hscie : i.envScie with
    | none =>
      unfold get_pants_process at hp
      rw [if_neg hcond, hscie] at hp
      simp at hp
    | some scie =>
      rw [get_pants_process_nondelegate i scie hcond hscie] at hp
      injection hp with hp2
      rw [← hp2, into_process_env_preserved]
      simp [pantsEnvOverlay]
  · intro hq
    unfold get_pants_from_sources_process at hq
    dsimp only at hq
    split at hq
    · simp at hq
    · split at hq
      · simp at hq
      · injection hq with hq2
        rw [← hq2]
        simp

/-- A run-from-sources invocation of a checkout at `/src/pants`. -/
def sourcesInput : SourcesProcessInputs :=
  { pantsRepoLocation := "/src/pants"
    versionFileContents := some "2.18.0\n"
    envEnablePantsd := none
    envPantsPantsd := none
    foundBuildRoot := some "/repo"
    sciePantsVersion := "0.0.0" }

/-- The descriptor `sourcesInput` produces. -/
def sourcesProcess : Process :=
  { exe := "/src/pants/pants", args := ["--no-verify-config"]
    env := [("PANTS_VERSION", "2.18.0"), ("PANTS_PANTSD", "false"),
            ("PANTS_BUILDROOT_OVERRIDE", "/repo"), ("no_proxy", "*"),
            ("SCIE_PANTS_VERSION", "0.0.0")] }

/-- Concrete instance of C10 (amended): both the normal descriptor for
`configuredRootInput` and the sources-mode descriptor for `sourcesInput`
carry `SCIE_PANTS_VERSION`. -/
theorem c10_scie_pants_version_overlay_witness :
    ("SCIE_PANTS_VERSION", "0.0.0") ∈ configuredRootProcess.env ∧
    ("SCIE_PANTS_VERSION", "0.0.0") ∈ sourcesProcess.env := by
  constructor
  · exact (c10_scie_pants_version_overlay configuredRootInput sourcesInput
      configuredRootProcess sourcesProcess).1 (by decide) (by decide)
  · exact (c10_scie_pants_version_overlay configuredRootInput sourcesInput
      configuredRootProcess sourcesProcess).2 (by decide)

end SciePants
